import Mathlib

/-!
Shallow embedding of `find_patients.py` (FHIR-Cardio-Smart-Dashboard).

The script's effectful ingredients are modelled explicitly:

* one HTTP GET is a `Fetch β`: either the request raises (`Fetch.raise`,
  a transport error), or it returns a status code together with an
  optional parsed JSON body (`none` models a body on which `.json()`
  raises, i.e. malformed JSON);
* a FHIR collection response is a `Bundle`: a JSON object with an
  optional `entry` list; each `Entry` has an optional resource id
  (`none` models a `KeyError` when reading `entry['resource']['id']`);
* a `Patient` resource body only matters through the presence of its
  `name` and `birthDate` fields;
* the Python `try/except` blocks become `Except DataStatus DataStatus`
  steps: `.error s` is an exception escaping to the enclosing handler
  with the mutable dict in state `s` (mutations made before the raise
  are kept, as in Python).

`requests.Response.raise_for_status` raises exactly for status codes in
`[400, 600)`; `get_all_patients` is modelled accordingly.  Inside
`check_patient_data` no `raise_for_status` is used: each check tests
`status_code == 200` and silently skips on anything else.
-/

set_option autoImplicit false

namespace FindPatients

/-- Outcome of one `requests.get` followed by an optional `.json()`:
`raise` is a transport error raised by `requests.get`; `ok status body`
is a completed response, where `body = none` means `.json()` raises
(malformed body) and `body = some b` is the parsed JSON. -/
inductive Fetch (β : Type) where
  | raise : Fetch β
  | ok (status : Nat) (body : Option β) : Fetch β
deriving DecidableEq

/-- The parts of a FHIR `Patient` resource the script reads:
whether `'name' in pt_data` and whether `'birthDate' in pt_data`. -/
structure PatientResource where
  name_present : Bool
  birthDate_present : Bool
deriving DecidableEq

/-- One element of a bundle's `entry` array; `resource_id = none` models
an entry on which `entry['resource']['id']` raises `KeyError`. -/
structure Entry where
  resource_id : Option String
deriving DecidableEq

/-- A FHIR search response: a JSON object with an optional `entry` list
(`'entry' in data`). -/
structure Bundle where
  entry : Option (List Entry)
deriving DecidableEq

/-- The `data_status` dict built by `check_patient_data`. -/
structure DataStatus where
  id : String
  demographics : Bool
  blood_pressure : Nat
  weight : Bool
  height : Bool
  medications : Nat
  has_complete_data : Bool
deriving DecidableEq

/-- The five fetch outcomes one evaluation of `check_patient_data`
would observe, one per sub-check, in the order the code issues them. -/
structure FetchEnv where
  patient : Fetch PatientResource
  bp : Fetch Bundle
  weight : Fetch Bundle
  height : Fetch Bundle
  meds : Fetch Bundle

/-- The loop `for entry in data['entry']: ids.append(entry['resource']['id'])`:
`none` when some entry raises `KeyError` (the enclosing handler then
discards everything appended so far and returns `[]`). -/
def extractIds : List Entry → Option (List String)
  | [] => some []
  | e :: rest =>
    match e.resource_id with
    | none => none
    | some i =>
      match extractIds rest with
      | none => none
      | some ids => some (i :: ids)

/-- `get_all_patients(limit)` evaluated against the response `resp` the
server gives to `GET /Patient?_count=limit`.  `raise_for_status` raises
exactly on status codes in `[400, 600)`; any exception inside the `try`
block yields `[]`. -/
def get_all_patients (limit : Nat) (resp : Fetch Bundle) : List String :=
  match resp with
  | .raise => []
  | .ok status body =>
    if 400 ≤ status ∧ status < 600 then []
    else
      match body with
      | none => []
      | some data =>
        match data.entry with
        | none => []
        | some entries =>
          match extractIds entries with
          | none => []
          | some ids => ids

/-- The initial `data_status` dict of `check_patient_data`. -/
def initStatus (patient_id : String) : DataStatus :=
  { id := patient_id, demographics := false, blood_pressure := 0,
    weight := false, height := false, medications := 0,
    has_complete_data := false }

/-- Demographics check: on a 200 response with parseable body, set
`demographics` when both `name` and `birthDate` are present; on a
non-200 status do nothing; a transport raise or malformed body is an
exception carrying the untouched state. -/
def stepDemo (f : Fetch PatientResource) (s : DataStatus) :
    Except DataStatus DataStatus :=
  match f with
  | .raise => .error s
  | .ok status body =>
    if status == 200 then
      match body with
      | none => .error s
      | some pt =>
        if pt.name_present && pt.birthDate_present then
          .ok { s with demographics := true }
        else
          .ok s
    else
      .ok s

/-- Blood-pressure check: on 200 with an `entry` field, store the entry
count; otherwise leave the field. -/
def stepBP (f : Fetch Bundle) (s : DataStatus) :
    Except DataStatus DataStatus :=
  match f with
  | .raise => .error s
  | .ok status body =>
    if status == 200 then
      match body with
      | none => .error s
      | some data =>
        match data.entry with
        | some es => .ok { s with blood_pressure := es.length }
        | none => .ok s
    else
      .ok s

/-- Weight check: on 200 with a nonempty `entry` list, set `weight`. -/
def stepWeight (f : Fetch Bundle) (s : DataStatus) :
    Except DataStatus DataStatus :=
  match f with
  | .raise => .error s
  | .ok status body =>
    if status == 200 then
      match body with
      | none => .error s
      | some data =>
        match data.entry with
        | some es => if 0 < es.length then .ok { s with weight := true } else .ok s
        | none => .ok s
    else
      .ok s

/-- Height check: on 200 with a nonempty `entry` list, set `height`. -/
def stepHeight (f : Fetch Bundle) (s : DataStatus) :
    Except DataStatus DataStatus :=
  match f with
  | .raise => .error s
  | .ok status body =>
    if status == 200 then
      match body with
      | none => .error s
      | some data =>
        match data.entry with
        | some es => if 0 < es.length then .ok { s with height := true } else .ok s
        | none => .ok s
    else
      .ok s

/-- Medication check: on 200 with an `entry` field, store the entry
count. -/
def stepMeds (f : Fetch Bundle) (s : DataStatus) :
    Except DataStatus DataStatus :=
  match f with
  | .raise => .error s
  | .ok status body =>
    if status == 200 then
      match body with
      | none => .error s
      | some data =>
        match data.entry with
        | some es => .ok { s with medications := es.length }
        | none => .ok s
    else
      .ok s

/-- The single `except` handler of `check_patient_data`: if the step
raised, the rest of the `try` block is skipped and the dict keeps the
mutations made so far; otherwise the rest of the block (`k`) runs. -/
def handle (r : Except DataStatus DataStatus) (k : DataStatus → DataStatus) :
    DataStatus :=
  match r with
  | .error s => s
  | .ok s => k s

/-- Tail of `check_patient_data` after the blood-pressure check: weight,
height and medication checks, then the final `has_complete_data`
assignment. -/
def afterBP (env : FetchEnv) (s2 : DataStatus) : DataStatus :=
  handle (stepWeight env.weight s2) fun s3 =>
    handle (stepHeight env.height s3) fun s4 =>
      handle (stepMeds env.meds s4) fun s5 =>
        { s5 with has_complete_data :=
            s5.demographics && decide (0 < s5.blood_pressure) &&
            s5.weight && s5.height }

/-- Tail of `check_patient_data` after the demographics check. -/
def afterDemo (env : FetchEnv) (s1 : DataStatus) : DataStatus :=
  handle (stepBP env.bp s1) fun s2 => afterBP env s2

/-- The whole `try`/`except` body of `check_patient_data`: the final
value of the `data_status` dict. -/
def runChecks (patient_id : String) (env : FetchEnv) : DataStatus :=
  handle (stepDemo env.patient (initStatus patient_id)) fun s1 =>
    afterDemo env s1

/-- `check_patient_data(patient_id)` evaluated against the fetch
outcomes `env`: returns `(data_status['has_complete_data'], data_status)`. -/
def check_patient_data (patient_id : String) (env : FetchEnv) :
    Bool × DataStatus :=
  ((runChecks patient_id env).has_complete_data, runChecks patient_id env)

/-- The loop of `find_complete_patients` over the enumerated ids,
instrumented with the list of candidates actually passed to
`check_patient_data` (second component), in order. -/
def scanGo (target : Nat) (envOf : String → FetchEnv) :
    List String → List DataStatus → List DataStatus × List String
  | [], acc => (acc, [])
  | pid :: rest, acc =>
    let r := check_patient_data pid (envOf pid)
    if r.1 then
      let acc2 := acc ++ [r.2]
      if target ≤ acc2.length then
        (acc2, [pid])
      else
        let res := scanGo target envOf rest acc2
        (res.1, pid :: res.2)
    else
      let res := scanGo target envOf rest acc
      (res.1, pid :: res.2)

/-- `find_complete_patients(target_count, search_limit)` where
`enumResp` is the server's response to the enumeration request and
`envOf pid` gives the fetch outcomes observed while checking `pid`. -/
def find_complete_patients (target search_limit : Nat)
    (enumResp : Fetch Bundle) (envOf : String → FetchEnv) :
    List DataStatus :=
  (scanGo target envOf (get_all_patients search_limit enumResp) []).1

/-- The candidates `find_complete_patients` passes to the evaluator,
in order. -/
def evaluated_candidates (target search_limit : Nat)
    (enumResp : Fetch Bundle) (envOf : String → FetchEnv) :
    List String :=
  (scanGo target envOf (get_all_patients search_limit enumResp) []).2

/-- Whether one fetch step completes without raising: the request does
not raise, and when the status is 200 the body parses. -/
def stepSafe {β : Type} : Fetch β → Bool
  | .raise => false
  | .ok status body => !(status == 200 && body.isNone)

/-- The demographics value the demographics check computes on its own
(from the initial `false`). -/
def demoOf : Fetch PatientResource → Bool
  | .ok status (some pt) => status == 200 && (pt.name_present && pt.birthDate_present)
  | _ => false

/-- The count a counting check (blood pressure, medications) computes
on its own (from the initial `0`). -/
def entryCountOf : Fetch Bundle → Nat
  | .ok status (some data) =>
    if status == 200 then
      match data.entry with
      | some es => es.length
      | none => 0
    else 0
  | _ => 0

/-- The flag a presence check (weight, height) computes on its own
(from the initial `false`). -/
def entryPresentOf : Fetch Bundle → Bool
  | .ok status (some data) =>
    status == 200 &&
      (match data.entry with
       | some es => decide (0 < es.length)
       | none => false)
  | _ => false

/-- The completeness invariant, relativised by a flag `m` (taken below
to be "the medications check did not raise"): `has_complete_data`
equals `m` AND the four gating conditions read off the verdict. -/
def invariantAt (m : Bool) (v : DataStatus) : Prop :=
  v.has_complete_data =
    (m && v.demographics && decide (0 < v.blood_pressure) &&
     v.weight && v.height)

/-- No sub-check of one evaluation raises. -/
def envSafe (env : FetchEnv) : Bool :=
  stepSafe env.patient && stepSafe env.bp && stepSafe env.weight &&
  stepSafe env.height && stepSafe env.meds

/-- `(check_patient_data pid (envOf pid)).1`, the completeness bit the
scan loop branches on. -/
def isCompleteFor (envOf : String → FetchEnv) (pid : String) : Bool :=
  (check_patient_data pid (envOf pid)).1

/-- `(check_patient_data pid (envOf pid)).2`, the verdict the scan loop
accumulates. -/
def verdictFor (envOf : String → FetchEnv) (pid : String) : DataStatus :=
  (check_patient_data pid (envOf pid)).2

/-- A patient resource with both `name` and `birthDate`. -/
def goodPatient : Fetch PatientResource :=
  .ok 200 (some { name_present := true, birthDate_present := true })

/-- A 200 response whose bundle has exactly one well-formed entry. -/
def oneEntryBundle : Fetch Bundle :=
  .ok 200 (some { entry := some [{ resource_id := some "x" }] })

/-- An evaluation in which every check succeeds and finds data. -/
def envComplete : FetchEnv :=
  { patient := goodPatient, bp := oneEntryBundle, weight := oneEntryBundle,
    height := oneEntryBundle, meds := oneEntryBundle }

/-- `envComplete` with the blood-pressure request raising. -/
def envBPRaise : FetchEnv := { envComplete with bp := .raise }

/-- `envComplete` with the medication request raising. -/
def envMedsRaise : FetchEnv := { envComplete with meds := .raise }

/-- An evaluation in which every request raises. -/
def envAllRaise : FetchEnv :=
  { patient := .raise, bp := .raise, weight := .raise, height := .raise,
    meds := .raise }

/-- A per-candidate behaviour under which exactly "p2" is complete. -/
def envOfW : String → FetchEnv :=
  fun pid => if pid = "p2" then envComplete else envAllRaise

/-- An enumeration response listing "p1", "p2", "p3". -/
def enumRespW : Fetch Bundle :=
  .ok 200 (some { entry := some [{ resource_id := some "p1" },
                                 { resource_id := some "p2" },
                                 { resource_id := some "p3" }] })

/-- A bundle with two well-formed entries, ids "a" and "b". -/
def twoEntryBundle : Bundle :=
  { entry := some [{ resource_id := some "a" }, { resource_id := some "b" }] }

example : check_patient_data "p" envComplete =
    (true, { id := "p", demographics := true, blood_pressure := 1,
             weight := true, height := true, medications := 1,
             has_complete_data := true }) := by decide

example : check_patient_data "p" envAllRaise = (false, initStatus "p") := by decide

example : check_patient_data "p" envBPRaise =
    (false, { id := "p", demographics := true, blood_pressure := 0,
              weight := false, height := false, medications := 0,
              has_complete_data := false }) := by decide

example : check_patient_data "p" envMedsRaise =
    (false, { id := "p", demographics := true, blood_pressure := 1,
              weight := true, height := true, medications := 0,
              has_complete_data := false }) := by decide

example : get_all_patients 0 (.ok 200 (some { entry := some [{ resource_id := some "a" }] })) = ["a"] := by decide

example : get_all_patients 5 (.ok 304 (some { entry := some [{ resource_id := some "a" }] })) = ["a"] := by decide

example : get_all_patients 5 (.ok 404 (some { entry := some [{ resource_id := some "a" }] })) = [] := by decide

example : get_all_patients 5 (.ok 600 (some { entry := some [{ resource_id := some "a" }] })) = ["a"] := by decide

/-! ### Step lemmas -/

@[simp]
theorem handle_error (s : DataStatus) (k : DataStatus → DataStatus) :
    handle (.error s) k = s := rfl

@[simp]
theorem handle_ok (s : DataStatus) (k : DataStatus → DataStatus) :
    handle (.ok s) k = k s := rfl

theorem stepDemo_char (f : Fetch PatientResource) (s : DataStatus)
    (hf : stepSafe f = true) (hs : s.demographics = false) :
    stepDemo f s = .ok { s with demographics := demoOf f } := by
  obtain ⟨i, d, b, w, h, m, c⟩ := s
  simp only [DataStatus.demographics] at hs
  subst hs
  cases f with
  | raise => simp [stepSafe] at hf
  | ok status body =>
    cases body with
    | none =>
      simp [stepSafe] at hf
      simp [stepDemo, demoOf, hf]
    | some pt =>
      by_cases h200 : status = 200
      · subst h200
        by_cases hp : (pt.name_present && pt.birthDate_present) = true
        · simp [stepDemo, demoOf, hp]
        · simp [stepDemo, demoOf, hp]
      · simp [stepDemo, demoOf, h200]

theorem stepBP_char (f : Fetch Bundle) (s : DataStatus)
    (hf : stepSafe f = true) (hs : s.blood_pressure = 0) :
    stepBP f s = .ok { s with blood_pressure := entryCountOf f } := by
  obtain ⟨i, d, b, w, h, m, c⟩ := s
  simp only [DataStatus.blood_pressure] at hs
  subst hs
  cases f with
  | raise => simp [stepSafe] at hf
  | ok status body =>
    cases body with
    | none =>
      simp [stepSafe] at hf
      simp [stepBP, entryCountOf, hf]
    | some data =>
      obtain ⟨ent⟩ := data
      by_cases h200 : status = 200
      · subst h200
        cases ent with
        | none => simp [stepBP, entryCountOf]
        | some es => simp [stepBP, entryCountOf]
      · simp [stepBP, entryCountOf, h200]

theorem stepWeight_char (f : Fetch Bundle) (s : DataStatus)
    (hf : stepSafe f = true) (hs : s.weight = false) :
    stepWeight f s = .ok { s with weight := entryPresentOf f } := by
  obtain ⟨i, d, b, w, h, m, c⟩ := s
  simp only [DataStatus.weight] at hs
  subst hs
  cases f with
  | raise => simp [stepSafe] at hf
  | ok status body =>
    cases body with
    | none =>
      simp [stepSafe] at hf
      simp [stepWeight, entryPresentOf, hf]
    | some data =>
      obtain ⟨ent⟩ := data
      by_cases h200 : status = 200
      · subst h200
        cases ent with
        | none => simp [stepWeight, entryPresentOf]
        | some es =>
          by_cases hlen : 0 < es.length
          · simp [stepWeight, entryPresentOf, hlen]
          · simp [stepWeight, entryPresentOf, hlen]
      · simp [stepWeight, entryPresentOf, h200]

theorem stepHeight_char (f : Fetch Bundle) (s : DataStatus)
    (hf : stepSafe f = true) (hs : s.height = false) :
    stepHeight f s = .ok { s with height := entryPresentOf f } := by
  obtain ⟨i, d, b, w, h, m, c⟩ := s
  simp only [DataStatus.height] at hs
  subst hs
  cases f with
  | raise => simp [stepSafe] at hf
  | ok status body =>
    cases body with
    | none =>
      simp [stepSafe] at hf
      simp [stepHeight, entryPresentOf, hf]
    | some data =>
      obtain ⟨ent⟩ := data
      by_cases h200 : status = 200
      · subst h200
        cases ent with
        | none => simp [stepHeight, entryPresentOf]
        | some es =>
          by_cases hlen : 0 < es.length
          · simp [stepHeight, entryPresentOf, hlen]
          · simp [stepHeight, entryPresentOf, hlen]
      · simp [stepHeight, entryPresentOf, h200]

theorem stepMeds_char (f : Fetch Bundle) (s : DataStatus)
    (hf : stepSafe f = true) (hs : s.medications = 0) :
    stepMeds f s = .ok { s with medications := entryCountOf f } := by
  obtain ⟨i, d, b, w, h, m, c⟩ := s
  simp only [DataStatus.medications] at hs
  subst hs
  cases f with
  | raise => simp [stepSafe] at hf
  | ok status body =>
    cases body with
    | none =>
      simp [stepSafe] at hf
      simp [stepMeds, entryCountOf, hf]
    | some data =>
      obtain ⟨ent⟩ := data
      by_cases h200 : status = 200
      · subst h200
        cases ent with
        | none => simp [stepMeds, entryCountOf]
        | some es => simp [stepMeds, entryCountOf]
      · simp [stepMeds, entryCountOf, h200]

theorem stepDemo_raise (f : Fetch PatientResource) (s : DataStatus)
    (hf : stepSafe f = false) : stepDemo f s = .error s := by
  cases f with
  | raise => rfl
  | ok status body =>
    simp [stepSafe] at hf
    obtain ⟨h200, hnone⟩ := hf
    subst h200 hnone
    simp [stepDemo]

theorem stepBP_raise (f : Fetch Bundle) (s : DataStatus)
    (hf : stepSafe f = false) : stepBP f s = .error s := by
  cases f with
  | raise => rfl
  | ok status body =>
    simp [stepSafe] at hf
    obtain ⟨h200, hnone⟩ := hf
    subst h200 hnone
    simp [stepBP]

theorem stepWeight_raise (f : Fetch Bundle) (s : DataStatus)
    (hf : stepSafe f = false) : stepWeight f s = .error s := by
  cases f with
  | raise => rfl
  | ok status body =>
    simp [stepSafe] at hf
    obtain ⟨h200, hnone⟩ := hf
    subst h200 hnone
    simp [stepWeight]

theorem stepHeight_raise (f : Fetch Bundle) (s : DataStatus)
    (hf : stepSafe f = false) : stepHeight f s = .error s := by
  cases f with
  | raise => rfl
  | ok status body =>
    simp [stepSafe] at hf
    obtain ⟨h200, hnone⟩ := hf
    subst h200 hnone
    simp [stepHeight]

theorem stepMeds_raise (f : Fetch Bundle) (s : DataStatus)
    (hf : stepSafe f = false) : stepMeds f s = .error s := by
  cases f with
  | raise => rfl
  | ok status body =>
    simp [stepSafe] at hf
    obtain ⟨h200, hnone⟩ := hf
    subst h200 hnone
    simp [stepMeds]

theorem stepDemo_error_eq (f : Fetch PatientResource) (s t : DataStatus)
    (h : stepDemo f s = .error t) : t = s := by
  cases f with
  | raise => simpa [stepDemo] using h.symm
  | ok status body =>
    by_cases h200 : status = 200
    · subst h200
      cases body with
      | none => simpa [stepDemo] using h.symm
      | some pt =>
        by_cases hp : (pt.name_present && pt.birthDate_present) = true <;>
          simp [stepDemo, hp] at h
    · simp [stepDemo, h200] at h

theorem stepBP_error_eq (f : Fetch Bundle) (s t : DataStatus)
    (h : stepBP f s = .error t) : t = s := by
  cases f with
  | raise => simpa [stepBP] using h.symm
  | ok status body =>
    by_cases h200 : status = 200
    · subst h200
      cases body with
      | none => simpa [stepBP] using h.symm
      | some data =>
        obtain ⟨ent⟩ := data
        cases ent <;> simp [stepBP] at h
    · simp [stepBP, h200] at h

theorem stepWeight_error_eq (f : Fetch Bundle) (s t : DataStatus)
    (h : stepWeight f s = .error t) : t = s := by
  cases f with
  | raise => simpa [stepWeight] using h.symm
  | ok status body =>
    by_cases h200 : status = 200
    · subst h200
      cases body with
      | none => simpa [stepWeight] using h.symm
      | some data =>
        obtain ⟨ent⟩ := data
        cases ent with
        | none => simp [stepWeight] at h
        | some es =>
          by_cases hlen : 0 < es.length <;> simp [stepWeight, hlen] at h
    · simp [stepWeight, h200] at h

theorem stepHeight_error_eq (f : Fetch Bundle) (s t : DataStatus)
    (h : stepHeight f s = .error t) : t = s := by
  cases f with
  | raise => simpa [stepHeight] using h.symm
  | ok status body =>
    by_cases h200 : status = 200
    · subst h200
      cases body with
      | none => simpa [stepHeight] using h.symm
      | some data =>
        obtain ⟨ent⟩ := data
        cases ent with
        | none => simp [stepHeight] at h
        | some es =>
          by_cases hlen : 0 < es.length <;> simp [stepHeight, hlen] at h
    · simp [stepHeight, h200] at h

theorem stepMeds_error_eq (f : Fetch Bundle) (s t : DataStatus)
    (h : stepMeds f s = .error t) : t = s := by
  cases f with
  | raise => simpa [stepMeds] using h.symm
  | ok status body =>
    by_cases h200 : status = 200
    · subst h200
      cases body with
      | none => simpa [stepMeds] using h.symm
      | some data =>
        obtain ⟨ent⟩ := data
        cases ent <;> simp [stepMeds] at h
    · simp [stepMeds, h200] at h

theorem stepDemo_ok_frame (f : Fetch PatientResource) (s t : DataStatus)
    (h : stepDemo f s = .ok t) :
    t.id = s.id ∧ t.blood_pressure = s.blood_pressure ∧ t.weight = s.weight ∧
    t.height = s.height ∧ t.medications = s.medications ∧
    t.has_complete_data = s.has_complete_data := by
  cases f with
  | raise => simp [stepDemo] at h
  | ok status body =>
    by_cases h200 : status = 200
    · subst h200
      cases body with
      | none => simp [stepDemo] at h
      | some pt =>
        by_cases hp : (pt.name_present && pt.birthDate_present) = true <;>
          simp [stepDemo, hp] at h <;> subst h <;> simp
    · simp [stepDemo, h200] at h
      subst h
      simp

theorem stepBP_ok_frame (f : Fetch Bundle) (s t : DataStatus)
    (h : stepBP f s = .ok t) :
    t.id = s.id ∧ t.demographics = s.demographics ∧ t.weight = s.weight ∧
    t.height = s.height ∧ t.medications = s.medications ∧
    t.has_complete_data = s.has_complete_data := by
  cases f with
  | raise => simp [stepBP] at h
  | ok status body =>
    by_cases h200 : status = 200
    · subst h200
      cases body with
      | none => simp [stepBP] at h
      | some data =>
        obtain ⟨ent⟩ := data
        cases ent <;> simp [stepBP] at h <;> subst h <;> simp
    · simp [stepBP, h200] at h
      subst h
      simp

theorem stepWeight_ok_frame (f : Fetch Bundle) (s t : DataStatus)
    (h : stepWeight f s = .ok t) :
    t.id = s.id ∧ t.demographics = s.demographics ∧
    t.blood_pressure = s.blood_pressure ∧ t.height = s.height ∧
    t.medications = s.medications ∧
    t.has_complete_data = s.has_complete_data := by
  cases f with
  | raise => simp [stepWeight] at h
  | ok status body =>
    by_cases h200 : status = 200
    · subst h200
      cases body with
      | none => simp [stepWeight] at h
      | some data =>
        obtain ⟨ent⟩ := data
        cases ent with
        | none =>
          simp [stepWeight] at h
          subst h
          simp
        | some es =>
          by_cases hlen : 0 < es.length <;> simp [stepWeight, hlen] at h <;>
            subst h <;> simp
    · simp [stepWeight, h200] at h
      subst h
      simp

theorem stepHeight_ok_frame (f : Fetch Bundle) (s t : DataStatus)
    (h : stepHeight f s = .ok t) :
    t.id = s.id ∧ t.demographics = s.demographics ∧
    t.blood_pressure = s.blood_pressure ∧ t.weight = s.weight ∧
    t.medications = s.medications ∧
    t.has_complete_data = s.has_complete_data := by
  cases f with
  | raise => simp [stepHeight] at h
  | ok status body =>
    by_cases h200 : status = 200
    · subst h200
      cases body with
      | none => simp [stepHeight] at h
      | some data =>
        obtain ⟨ent⟩ := data
        cases ent with
        | none =>
          simp [stepHeight] at h
          subst h
          simp
        | some es =>
          by_cases hlen : 0 < es.length <;> simp [stepHeight, hlen] at h <;>
            subst h <;> simp
    · simp [stepHeight, h200] at h
      subst h
      simp

theorem stepMeds_ok_frame (f : Fetch Bundle) (s t : DataStatus)
    (h : stepMeds f s = .ok t) :
    t.id = s.id ∧ t.demographics = s.demographics ∧
    t.blood_pressure = s.blood_pressure ∧ t.weight = s.weight ∧
    t.height = s.height ∧ t.has_complete_data = s.has_complete_data := by
  cases f with
  | raise => simp [stepMeds] at h
  | ok status body =>
    by_cases h200 : status = 200
    · subst h200
      cases body with
      | none => simp [stepMeds] at h
      | some data =>
        obtain ⟨ent⟩ := data
        cases ent <;> simp [stepMeds] at h <;> subst h <;> simp
    · simp [stepMeds, h200] at h
      subst h
      simp

theorem entryCountOf_zero_of_raise (f : Fetch Bundle) (hf : stepSafe f = false) :
    entryCountOf f = 0 := by
  cases f with
  | raise => rfl
  | ok status body =>
    simp [stepSafe] at hf
    obtain ⟨h200, hnone⟩ := hf
    subst h200 hnone
    rfl

theorem extractIds_length :
    ∀ (es : List Entry) (ids : List String),
      extractIds es = some ids → ids.length = es.length := by
  intro es
  induction es with
  | nil =>
    intro ids h
    simp [extractIds] at h
    subst h
    rfl
  | cons e rest ih =>
    intro ids h
    cases hr : e.resource_id with
    | none => simp [extractIds, hr] at h
    | some i =>
      cases hx : extractIds rest with
      | none => simp [extractIds, hr, hx] at h
      | some tl =>
        simp [extractIds, hr, hx] at h
        subst h
        simp [ih tl hx]

/-! ### Preservation through the tail of the evaluation -/

theorem afterBP_bp (env : FetchEnv) (s : DataStatus) :
    (afterBP env s).blood_pressure = s.blood_pressure := by
  unfold afterBP
  cases hw : stepWeight env.weight s with
  | error t =>
    simp only [handle_error]
    rw [stepWeight_error_eq env.weight s t hw]
  | ok t =>
    simp only [handle_ok]
    have hbpw := (stepWeight_ok_frame env.weight s t hw).2.2.1
    cases hh : stepHeight env.height t with
    | error u =>
      simp only [handle_error]
      rw [stepHeight_error_eq env.height t u hh, hbpw]
    | ok u =>
      simp only [handle_ok]
      have hbph := (stepHeight_ok_frame env.height t u hh).2.2.1
      cases hm : stepMeds env.meds u with
      | error v =>
        simp only [handle_error]
        rw [stepMeds_error_eq env.meds u v hm, hbph, hbpw]
      | ok v =>
        simp only [handle_ok]
        have hbpm := (stepMeds_ok_frame env.meds u v hm).2.2.1
        simp [hbpm, hbph, hbpw]

theorem afterBP_id (env : FetchEnv) (s : DataStatus) :
    (afterBP env s).id = s.id := by
  unfold afterBP
  cases hw : stepWeight env.weight s with
  | error t =>
    simp only [handle_error]
    rw [stepWeight_error_eq env.weight s t hw]
  | ok t =>
    simp only [handle_ok]
    have hidw := (stepWeight_ok_frame env.weight s t hw).1
    cases hh : stepHeight env.height t with
    | error u =>
      simp only [handle_error]
      rw [stepHeight_error_eq env.height t u hh, hidw]
    | ok u =>
      simp only [handle_ok]
      have hidh := (stepHeight_ok_frame env.height t u hh).1
      cases hm : stepMeds env.meds u with
      | error v =>
        simp only [handle_error]
        rw [stepMeds_error_eq env.meds u v hm, hidh, hidw]
      | ok v =>
        simp only [handle_ok]
        have hidm := (stepMeds_ok_frame env.meds u v hm).1
        simp [hidm, hidh, hidw]

theorem afterDemo_id (env : FetchEnv) (s : DataStatus) :
    (afterDemo env s).id = s.id := by
  unfold afterDemo
  cases hb : stepBP env.bp s with
  | error u =>
    simp only [handle_error]
    rw [stepBP_error_eq env.bp s u hb]
  | ok u =>
    simp only [handle_ok]
    rw [afterBP_id, (stepBP_ok_frame env.bp s u hb).1]

theorem runChecks_id (pid : String) (env : FetchEnv) :
    (runChecks pid env).id = pid := by
  unfold runChecks
  cases hd : stepDemo env.patient (initStatus pid) with
  | error t =>
    simp only [handle_error]
    rw [stepDemo_error_eq env.patient (initStatus pid) t hd]
    rfl
  | ok t =>
    simp only [handle_ok]
    have hid : t.id = pid := by
      have h := (stepDemo_ok_frame env.patient (initStatus pid) t hd).1
      simpa [initStatus] using h
    rw [afterDemo_id, hid]

/-! ### Claim theorems about the Completeness Evaluator -/

/-- C10: for every candidate identifier and every behaviour of the
remote fetches, the boolean returned by `check_patient_data` equals the
`has_complete_data` field of the returned verdict, and the verdict's
`id` field equals the input `patient_id`. -/
theorem check_pair_and_id (pid : String) (env : FetchEnv) :
    (check_patient_data pid env).1 =
      (check_patient_data pid env).2.has_complete_data ∧
    (check_patient_data pid env).2.id = pid :=
  ⟨rfl, runChecks_id pid env⟩

/-- C9: if the demographics check does not raise (so the blood-pressure
fetch is actually issued), the verdict's `blood_pressure` field equals
the number of entries of the blood-pressure response when that fetch
completes with status 200 and a body containing an `entry` field, and
equals 0 when the body has no `entry` field, the status is not 200, or
the fetch raises or its body is malformed (`entryCountOf` is exactly
that case analysis). -/
theorem check_blood_pressure_count (pid : String) (env : FetchEnv)
    (hp : stepSafe env.patient = true) :
    (check_patient_data pid env).2.blood_pressure = entryCountOf env.bp := by
  show (runChecks pid env).blood_pressure = entryCountOf env.bp
  unfold runChecks
  rw [stepDemo_char env.patient (initStatus pid) hp rfl]
  simp only [handle_ok]
  unfold afterDemo
  cases hsafe : stepSafe env.bp with
  | false =>
    rw [stepBP_raise env.bp _ hsafe]
    simp only [handle_error]
    rw [entryCountOf_zero_of_raise env.bp hsafe]
    rfl
  | true =>
    rw [stepBP_char env.bp _ hsafe rfl]
    simp only [handle_ok]
    rw [afterBP_bp]

/-- C9 witness: a concrete evaluation with a 200 blood-pressure
response holding one entry. -/
theorem check_blood_pressure_count_witness :
    (check_patient_data "w9" envComplete).2.blood_pressure =
      entryCountOf envComplete.bp :=
  check_blood_pressure_count "w9" envComplete rfl

/-- C1 (amended): when the demographics check does not raise and the
blood-pressure transport call raises, the whole rest of the `try` block
is skipped: the verdict keeps `blood_pressure = 0` and
`has_complete_data = false`, demographics is populated from its own
check, and the weight, height and medication fields remain at their
defaults instead of being populated from their own checks. -/
theorem bp_raise_aborts_tail (pid : String) (env : FetchEnv)
    (hp : stepSafe env.patient = true) (hbp : env.bp = Fetch.raise) :
    check_patient_data pid env =
      (false, { id := pid, demographics := demoOf env.patient,
                blood_pressure := 0, weight := false, height := false,
                medications := 0, has_complete_data := false }) := by
  have hrun : runChecks pid env =
      { id := pid, demographics := demoOf env.patient, blood_pressure := 0,
        weight := false, height := false, medications := 0,
        has_complete_data := false } := by
    unfold runChecks
    rw [stepDemo_char env.patient (initStatus pid) hp rfl]
    simp only [handle_ok]
    unfold afterDemo
    rw [hbp, stepBP_raise Fetch.raise _ rfl]
    simp only [handle_error]
    rfl
  unfold check_patient_data
  rw [hrun]

/-- C1 witness: the amended claim at a concrete behaviour where all
checks but blood pressure would find data. -/
theorem bp_raise_aborts_tail_witness :
    check_patient_data "w1" envBPRaise =
      (false, { id := "w1", demographics := true, blood_pressure := 0,
                weight := false, height := false, medications := 0,
                has_complete_data := false }) :=
  bp_raise_aborts_tail "w1" envBPRaise rfl rfl

/-- C1 counterexample: with the blood-pressure transport call raising
for a candidate whose weight, height and medication data is present
(`entryPresentOf envBPRaise.weight = true`), the weight, height and
medication fields are NOT populated from their own checks: they stay at
their defaults `false`/`0`. -/
theorem bp_raise_skips_other_checks :
    check_patient_data "p0" envBPRaise =
      (false, { id := "p0", demographics := true, blood_pressure := 0,
                weight := false, height := false, medications := 0,
                has_complete_data := false }) ∧
    entryPresentOf envBPRaise.weight = true ∧
    entryPresentOf envBPRaise.height = true ∧
    entryCountOf envBPRaise.meds = 1 ∧
    (check_patient_data "p0" envBPRaise).2.weight = false := by
  decide

theorem afterBP_invariant (env : FetchEnv) (u : DataStatus)
    (hw : u.weight = false) (hh : u.height = false)
    (hm : u.medications = 0) (hc : u.has_complete_data = false) :
    invariantAt (stepSafe env.meds) (afterBP env u) := by
  unfold afterBP
  obtain ⟨r1, hwc⟩ : ∃ r, stepWeight env.weight u = r := ⟨_, rfl⟩
  rw [hwc]
  cases r1 with
  | error v =>
    simp only [handle_error]
    rw [stepWeight_error_eq env.weight u v hwc]
    simp [invariantAt, hc, hw]
  | ok v =>
    simp only [handle_ok]
    obtain ⟨-, -, -, hh2, hm2, hc2⟩ := stepWeight_ok_frame env.weight u v hwc
    rw [hh] at hh2
    rw [hm] at hm2
    rw [hc] at hc2
    obtain ⟨r2, hhc⟩ : ∃ r, stepHeight env.height v = r := ⟨_, rfl⟩
    rw [hhc]
    cases r2 with
    | error x =>
      simp only [handle_error]
      rw [stepHeight_error_eq env.height v x hhc]
      simp [invariantAt, hc2, hh2]
    | ok x =>
      simp only [handle_ok]
      obtain ⟨-, -, -, -, hm3, hc3⟩ := stepHeight_ok_frame env.height v x hhc
      rw [hm2] at hm3
      rw [hc2] at hc3
      cases hsafe : stepSafe env.meds with
      | false =>
        rw [stepMeds_raise env.meds x hsafe]
        simp only [handle_error]
        simp [invariantAt, hc3]
      | true =>
        rw [stepMeds_char env.meds x hsafe hm3]
        simp only [handle_ok]
        simp [invariantAt]

theorem afterDemo_invariant (env : FetchEnv) (t : DataStatus)
    (hw : t.weight = false) (hh : t.height = false)
    (hm : t.medications = 0) (hc : t.has_complete_data = false) :
    invariantAt (stepSafe env.meds) (afterDemo env t) := by
  unfold afterDemo
  obtain ⟨r1, hb⟩ : ∃ r, stepBP env.bp t = r := ⟨_, rfl⟩
  rw [hb]
  cases r1 with
  | error u =>
    simp only [handle_error]
    rw [stepBP_error_eq env.bp t u hb]
    simp [invariantAt, hc, hw]
  | ok u =>
    simp only [handle_ok]
    obtain ⟨-, -, hw2, hh2, hm2, hc2⟩ := stepBP_ok_frame env.bp t u hb
    rw [hw] at hw2
    rw [hh] at hh2
    rw [hm] at hm2
    rw [hc] at hc2
    exact afterBP_invariant env u hw2 hh2 hm2 hc2

theorem runChecks_invariant (pid : String) (env : FetchEnv) :
    invariantAt (stepSafe env.meds) (runChecks pid env) := by
  unfold runChecks
  obtain ⟨r1, hd⟩ : ∃ r, stepDemo env.patient (initStatus pid) = r := ⟨_, rfl⟩
  rw [hd]
  cases r1 with
  | error t =>
    simp only [handle_error]
    rw [stepDemo_error_eq env.patient (initStatus pid) t hd]
    simp [invariantAt, initStatus]
  | ok t =>
    simp only [handle_ok]
    obtain ⟨-, -, hw1, hh1, hm1, hc1⟩ :=
      stepDemo_ok_frame env.patient (initStatus pid) t hd
    simp only [initStatus] at hw1 hh1 hm1 hc1
    exact afterDemo_invariant env t hw1 hh1 hm1 hc1

/-- C2 (amended): `has_complete_data` equals the conjunction of "the
medications check did not raise" with the invariant's four conditions
read off the returned verdict; when no sub-check raises this is the
spec's invariant, and a raising medications check forces
`has_complete_data = false` even when the four conditions hold. -/
theorem check_complete_eq (pid : String) (env : FetchEnv) :
    (check_patient_data pid env).2.has_complete_data =
      (stepSafe env.meds && (check_patient_data pid env).2.demographics &&
       decide (0 < (check_patient_data pid env).2.blood_pressure) &&
       (check_patient_data pid env).2.weight &&
       (check_patient_data pid env).2.height) :=
  runChecks_invariant pid env

/-! ### The Scan Controller loop -/

theorem scanGo_cons_pos_break (target : Nat) (envOf : String → FetchEnv)
    (pid : String) (rest : List String) (acc : List DataStatus)
    (hc : (check_patient_data pid (envOf pid)).1 = true)
    (hlen : target ≤ acc.length + 1) :
    scanGo target envOf (pid :: rest) acc =
      (acc ++ [(check_patient_data pid (envOf pid)).2], [pid]) := by
  simp [scanGo, hc, hlen]

theorem scanGo_cons_pos_go (target : Nat) (envOf : String → FetchEnv)
    (pid : String) (rest : List String) (acc : List DataStatus)
    (hc : (check_patient_data pid (envOf pid)).1 = true)
    (hlen : ¬ target ≤ acc.length + 1) :
    scanGo target envOf (pid :: rest) acc =
      ((scanGo target envOf rest
          (acc ++ [(check_patient_data pid (envOf pid)).2])).1,
       pid :: (scanGo target envOf rest
          (acc ++ [(check_patient_data pid (envOf pid)).2])).2) := by
  simp [scanGo, hc, hlen]

theorem scanGo_cons_neg (target : Nat) (envOf : String → FetchEnv)
    (pid : String) (rest : List String) (acc : List DataStatus)
    (hc : (check_patient_data pid (envOf pid)).1 = false) :
    scanGo target envOf (pid :: rest) acc =
      ((scanGo target envOf rest acc).1,
       pid :: (scanGo target envOf rest acc).2) := by
  simp [scanGo, hc]

theorem scanGo_trace_bound (target : Nat) (envOf : String → FetchEnv) :
    ∀ (ids : List String) (acc : List DataStatus), acc.length < target →
      ∀ i, i < ((scanGo target envOf ids acc).2).length →
        acc.length +
            List.countP (isCompleteFor envOf)
              (((scanGo target envOf ids acc).2).take i) <
          target := by
  intro ids
  induction ids with
  | nil =>
    intro acc hacc i hi
    simp [scanGo] at hi
  | cons pid rest ih =>
    intro acc hacc i hi
    by_cases hc : (check_patient_data pid (envOf pid)).1 = true
    · by_cases hlen : target ≤ acc.length + 1
      · rw [scanGo_cons_pos_break target envOf pid rest acc hc hlen] at hi ⊢
        have hi0 : i = 0 := by
          simp at hi
          omega
        subst hi0
        simpa using hacc
      · rw [scanGo_cons_pos_go target envOf pid rest acc hc hlen] at hi ⊢
        cases i with
        | zero => simpa using hacc
        | succ j =>
          have hacc2 :
              (acc ++ [(check_patient_data pid (envOf pid)).2]).length < target := by
            simp only [List.length_append, List.length_singleton]
            omega
          have hj : j < ((scanGo target envOf rest
              (acc ++ [(check_patient_data pid (envOf pid)).2])).2).length := by
            simpa using hi
          have hrec := ih (acc ++ [(check_patient_data pid (envOf pid)).2]) hacc2 j hj
          simp only [List.length_append, List.length_singleton] at hrec
          simp only [List.take_succ_cons, List.countP_cons, isCompleteFor, hc]
          simp
          omega
    · have hc' : (check_patient_data pid (envOf pid)).1 = false := by
        simpa using hc
      rw [scanGo_cons_neg target envOf pid rest acc hc'] at hi ⊢
      cases i with
      | zero => simpa using hacc
      | succ j =>
        have hj : j < ((scanGo target envOf rest acc).2).length := by
          simpa using hi
        have hrec := ih acc hacc j hj
        simp only [List.take_succ_cons, List.countP_cons, isCompleteFor, hc']
        simp
        omega

theorem scanGo_length_le (target : Nat) (envOf : String → FetchEnv) :
    ∀ (ids : List String) (acc : List DataStatus), acc.length < target →
      ((scanGo target envOf ids acc).1).length ≤ target := by
  intro ids
  induction ids with
  | nil =>
    intro acc hacc
    simp [scanGo]
    omega
  | cons pid rest ih =>
    intro acc hacc
    by_cases hc : (check_patient_data pid (envOf pid)).1 = true
    · by_cases hlen : target ≤ acc.length + 1
      · rw [scanGo_cons_pos_break target envOf pid rest acc hc hlen]
        simp only [List.length_append, List.length_singleton]
        omega
      · rw [scanGo_cons_pos_go target envOf pid rest acc hc hlen]
        exact ih _ (by simp only [List.length_append, List.length_singleton]; omega)
    · have hc' : (check_patient_data pid (envOf pid)).1 = false := by
        simpa using hc
      rw [scanGo_cons_neg target envOf pid rest acc hc']
      exact ih acc hacc

theorem scanGo_exhaust (target : Nat) (envOf : String → FetchEnv) :
    ∀ (ids : List String) (acc : List DataStatus),
      acc.length + List.countP (isCompleteFor envOf) ids < target →
      scanGo target envOf ids acc =
        (acc ++ (ids.filter (isCompleteFor envOf)).map (verdictFor envOf),
         ids) := by
  intro ids
  induction ids with
  | nil =>
    intro acc hcnt
    simp [scanGo]
  | cons pid rest ih =>
    intro acc hcnt
    by_cases hc : (check_patient_data pid (envOf pid)).1 = true
    · have hcnt' :
          acc.length + List.countP (isCompleteFor envOf) rest + 1 < target := by
        simp [List.countP_cons, isCompleteFor, hc] at hcnt
        omega
      have hlen : ¬ target ≤ acc.length + 1 := by omega
      rw [scanGo_cons_pos_go target envOf pid rest acc hc hlen]
      have hrec := ih (acc ++ [(check_patient_data pid (envOf pid)).2])
        (by simp only [List.length_append, List.length_singleton]; omega)
      rw [hrec]
      simp [List.filter_cons, isCompleteFor, hc, verdictFor]
    · have hc' : (check_patient_data pid (envOf pid)).1 = false := by
        simpa using hc
      have hcnt' : acc.length + List.countP (isCompleteFor envOf) rest < target := by
        simp [List.countP_cons, isCompleteFor, hc'] at hcnt
        omega
      rw [scanGo_cons_neg target envOf pid rest acc hc']
      rw [ih acc hcnt']
      simp [List.filter_cons, isCompleteFor, hc']

/-! ### Claim theorems about the Scan Controller -/

/-- C3: for every enumerated candidate sequence and every
`target ≥ 1`, before each candidate the loop passes to the evaluator,
strictly fewer than `target` complete verdicts had been accumulated —
so once `target` is reached, no further candidate is ever evaluated. -/
theorem no_evaluation_after_target (target : Nat) (envOf : String → FetchEnv)
    (ids : List String) (ht : 1 ≤ target) (i : Nat)
    (hi : i < ((scanGo target envOf ids []).2).length) :
    List.countP (isCompleteFor envOf)
        (((scanGo target envOf ids []).2).take i) < target := by
  have h := scanGo_trace_bound target envOf ids [] (by simpa using ht) i hi
  simpa using h

/-- C3 witness: with only "p2" complete and target 1, the second
evaluated candidate ("p2") is evaluated while 0 < 1 verdicts are in. -/
theorem no_evaluation_after_target_witness :
    List.countP (isCompleteFor envOfW)
        (((scanGo 1 envOfW ["p1", "p2", "p3"] []).2).take 1) < 1 :=
  no_evaluation_after_target 1 envOfW ["p1", "p2", "p3"] (by decide) 1 (by decide)

/-- C4: for every `target ≥ 1`, every enumeration response and every
fetch behaviour, `find_complete_patients` returns at most `target`
verdicts. -/
theorem find_complete_at_most_target (target search_limit : Nat)
    (enumResp : Fetch Bundle) (envOf : String → FetchEnv)
    (ht : 1 ≤ target) :
    (find_complete_patients target search_limit enumResp envOf).length ≤
      target := by
  unfold find_complete_patients
  exact scanGo_length_le target envOf (get_all_patients search_limit enumResp)
    [] (by simpa using ht)

/-- C4 witness. -/
theorem find_complete_at_most_target_witness :
    (find_complete_patients 1 5 enumRespW envOfW).length ≤ 1 :=
  find_complete_at_most_target 1 5 enumRespW envOfW (by decide)

/-- C5: for an enumerated sequence ["p1","p2","p3"], an evaluator
deeming exactly "p2" complete and target 1, the result is exactly the
verdict of "p2" and the evaluator is invoked on "p1" and "p2" only —
never on "p3". -/
theorem scan_only_p2_complete (envOf : String → FetchEnv)
    (h1 : (check_patient_data "p1" (envOf "p1")).1 = false)
    (h2 : (check_patient_data "p2" (envOf "p2")).1 = true)
    (_h3 : (check_patient_data "p3" (envOf "p3")).1 = false) :
    (scanGo 1 envOf ["p1", "p2", "p3"] []).1 =
      [(check_patient_data "p2" (envOf "p2")).2] ∧
    (scanGo 1 envOf ["p1", "p2", "p3"] []).2 = ["p1", "p2"] := by
  rw [scanGo_cons_neg 1 envOf "p1" ["p2", "p3"] [] h1]
  rw [scanGo_cons_pos_break 1 envOf "p2" ["p3"] [] h2 (by simp)]
  simp

/-- C5 witness: the concrete behaviour `envOfW`. -/
theorem scan_only_p2_complete_witness :
    (scanGo 1 envOfW ["p1", "p2", "p3"] []).1 =
      [{ id := "p2", demographics := true, blood_pressure := 1,
         weight := true, height := true, medications := 1,
         has_complete_data := true }] ∧
    (scanGo 1 envOfW ["p1", "p2", "p3"] []).2 = ["p1", "p2"] := by
  have h := scan_only_p2_complete envOfW (by decide) (by decide) (by decide)
  exact ⟨h.1.trans (by decide), h.2⟩

/-- C6: if fewer than `target` of the enumerated candidates are
complete, the scan returns exactly the verdicts of the complete
candidates, in order, after evaluating every candidate (exhausted
search, not an error); with an empty enumeration the result is empty
and nothing is ever evaluated. -/
theorem find_complete_exhausted (target search_limit : Nat)
    (enumResp : Fetch Bundle) (envOf : String → FetchEnv) :
    (List.countP (isCompleteFor envOf)
        (get_all_patients search_limit enumResp) < target →
      find_complete_patients target search_limit enumResp envOf =
        ((get_all_patients search_limit enumResp).filter
          (isCompleteFor envOf)).map (verdictFor envOf) ∧
      evaluated_candidates target search_limit enumResp envOf =
        get_all_patients search_limit enumResp) ∧
    (get_all_patients search_limit enumResp = [] →
      find_complete_patients target search_limit enumResp envOf = [] ∧
      evaluated_candidates target search_limit enumResp envOf = []) := by
  constructor
  · intro hcnt
    have h := scanGo_exhaust target envOf
      (get_all_patients search_limit enumResp) [] (by simpa using hcnt)
    unfold find_complete_patients evaluated_candidates
    rw [h]
    simp
  · intro hemp
    unfold find_complete_patients evaluated_candidates
    rw [hemp]
    simp [scanGo]

/-- C6 witness: a raising enumeration yields no candidates, an empty
result and no evaluation. -/
theorem find_complete_exhausted_witness :
    find_complete_patients 1 5 Fetch.raise envOfW = [] ∧
    evaluated_candidates 1 5 Fetch.raise envOfW = [] := by
  have h := (find_complete_exhausted 1 5 Fetch.raise envOfW).1 (by decide)
  exact ⟨h.1.trans (by decide), h.2.trans (by decide)⟩

/-! ### Claim theorems about the Candidate Enumerator -/

/-- C7 (amended): a transport failure (request raise), a status in
`[400, 600)` (exactly the ones `raise_for_status` raises on), a
malformed body, or an entry missing its resource id all yield an empty
sequence, and no failure propagates (the function is total); statuses
outside `[400, 600)` are treated as success by `raise_for_status`. -/
theorem get_all_patients_failure_empty (limit : Nat) (resp : Fetch Bundle) :
    (resp = Fetch.raise → get_all_patients limit resp = []) ∧
    (∀ st b, resp = Fetch.ok st b → 400 ≤ st → st < 600 →
      get_all_patients limit resp = []) ∧
    (∀ st, resp = Fetch.ok st none → get_all_patients limit resp = []) ∧
    (∀ st bd es, resp = Fetch.ok st (some bd) → bd.entry = some es →
      extractIds es = none → get_all_patients limit resp = []) := by
  refine ⟨?_, ?_, ?_, ?_⟩
  · intro h
    subst h
    rfl
  · intro st b h hst hlt
    subst h
    simp [get_all_patients, hst, hlt]
  · intro st h
    subst h
    by_cases hst : 400 ≤ st ∧ st < 600 <;> simp [get_all_patients, hst]
  · intro st bd es h hb hx
    subst h
    by_cases hst : 400 ≤ st ∧ st < 600
    · simp [get_all_patients, hst]
    · simp [get_all_patients, hst, hb, hx]

/-- C7 witness: the four failure modes at concrete inputs. -/
theorem get_all_patients_failure_empty_witness :
    get_all_patients 5 Fetch.raise = [] ∧
    get_all_patients 5 (Fetch.ok 500 (some twoEntryBundle)) = [] ∧
    get_all_patients 5 (Fetch.ok 200 none) = [] ∧
    get_all_patients 5
      (Fetch.ok 200 (some { entry := some [{ resource_id := none }] })) = [] := by
  refine ⟨?_, ?_, ?_, ?_⟩
  · exact (get_all_patients_failure_empty 5 Fetch.raise).1 rfl
  · exact (get_all_patients_failure_empty 5 _).2.1 500 _ rfl (by decide) (by decide)
  · exact (get_all_patients_failure_empty 5 _).2.2.1 200 rfl
  · exact (get_all_patients_failure_empty 5 _).2.2.2 200 _ _ rfl rfl (by decide)

/-- C7 counterexample: a non-2xx status below 400 (here 304) is not
treated as a failure: `raise_for_status` does not raise on it, so a
well-formed body yields a non-empty sequence, contradicting "non-2xx
status yields an empty sequence". -/
theorem get_all_patients_304_not_empty :
    get_all_patients 5
        (Fetch.ok 304 (some { entry := some [{ resource_id := some "a" }] })) =
      ["a"] ∧
    get_all_patients 5
        (Fetch.ok 304 (some { entry := some [{ resource_id := some "a" }] })) ≠
      [] := by
  decide

/-- C8 (amended): on a non-raising response, `get_all_patients` returns
exactly the ids of the response's entries in server-provided order; its
length equals the number of entries, hence is at most `limit` whenever
the server honours the requested `_count=limit` — but the code itself
never truncates. -/
theorem get_all_patients_order (limit st : Nat) (bd : Bundle)
    (es : List Entry) (ids : List String) (hst : st < 400)
    (hb : bd.entry = some es) (hx : extractIds es = some ids) :
    get_all_patients limit (Fetch.ok st (some bd)) = ids ∧
    ids.length = es.length ∧
    (es.length ≤ limit →
      (get_all_patients limit (Fetch.ok st (some bd))).length ≤ limit) := by
  have hmain : get_all_patients limit (Fetch.ok st (some bd)) = ids := by
    simp [get_all_patients, show ¬ (400 ≤ st ∧ st < 600) by omega, hb, hx]
  have hlen := extractIds_length es ids hx
  refine ⟨hmain, hlen, fun hle => ?_⟩
  rw [hmain, hlen]
  exact hle

/-- C8 witness: two entries, limit 5. -/
theorem get_all_patients_order_witness :
    get_all_patients 5 (Fetch.ok 200 (some twoEntryBundle)) = ["a", "b"] ∧
    (["a", "b"] : List String).length =
      ([{ resource_id := some "a" }, { resource_id := some "b" }] :
        List Entry).length ∧
    (([{ resource_id := some "a" }, { resource_id := some "b" }] :
        List Entry).length ≤ 5 →
      (get_all_patients 5 (Fetch.ok 200 (some twoEntryBundle))).length ≤ 5) :=
  get_all_patients_order 5 200 twoEntryBundle
    [{ resource_id := some "a" }, { resource_id := some "b" }] ["a", "b"]
    (by decide) rfl (by decide)

/-- C8 counterexample: with `limit = 0`, a server response carrying one
entry makes `get_all_patients` return one id — the code never truncates
to `limit`, so "length at most limit for every response" is false. -/
theorem get_all_patients_exceeds_limit :
    get_all_patients 0
        (Fetch.ok 200 (some { entry := some [{ resource_id := some "a" }] })) =
      ["a"] ∧
    ¬ ((get_all_patients 0
        (Fetch.ok 200 (some { entry := some [{ resource_id := some "a" }] }))).length ≤ 0) := by
  decide

/-- C2 counterexample: when the medication request raises after the
four gating checks found data, the verdict has demographics true, one
blood-pressure record, weight and height true — yet
`has_complete_data` is false, refuting the unconditional invariant. -/
theorem meds_raise_breaks_invariant :
    (check_patient_data "p0" envMedsRaise).2.demographics = true ∧
    (check_patient_data "p0" envMedsRaise).2.blood_pressure = 1 ∧
    (check_patient_data "p0" envMedsRaise).2.weight = true ∧
    (check_patient_data "p0" envMedsRaise).2.height = true ∧
    (check_patient_data "p0" envMedsRaise).2.has_complete_data = false ∧
    ((check_patient_data "p0" envMedsRaise).2.has_complete_data =
        ((check_patient_data "p0" envMedsRaise).2.demographics &&
         decide (0 < (check_patient_data "p0" envMedsRaise).2.blood_pressure) &&
         (check_patient_data "p0" envMedsRaise).2.weight &&
         (check_patient_data "p0" envMedsRaise).2.height) →
      False) := by
  decide

end FindPatients
